import Mathlib

/-!
Verification of `group_project_v2/stage_components.py` (xblock-group-project-v2).

This file shallowly embeds the logic of the submission, review-question and
feedback-display XBlocks: the upload gating and relay of
`GroupProjectSubmissionXBlock.upload_submission` / `persist_and_submit_file`,
the submission lookup of `get_upload`, the question-markup renderer
`GroupProjectReviewQuestionXBlock.render_content`, and the feedback
filter / escape / mean pipeline of
`GroupProjectBaseFeedbackDisplayXBlock.student_view` together with
`GroupProjectTeamEvaluationDisplayXBlock.get_feedback`.

External host services (submission storage, submissions backend, analytics
publish, notification service, XML parsing, date formatting) are modelled as
oracles: their outcomes are inputs of the embedded functions, and observable
calls into them are recorded in an explicit effect trace.
-/

/-! ## HTML escaping (django.utils.html.escape) -/

/-- Escaping of one character, as `django.utils.html.escape` does over the
whole string: `&`, `<`, `>`, `"` and the apostrophe are replaced by their
HTML entities, every other character is kept. -/
def escape_char (c : Char) : String :=
  if c = '&' then "&amp;"
  else if c = '<' then "&lt;"
  else if c = '>' then "&gt;"
  else if c = Char.ofNat 34 then "&quot;"
  else if c = Char.ofNat 39 then "&#x27;"
  else String.singleton c

/-- `django.utils.html.escape`: every occurrence of `&`, `<`, `>`, `"`, and
the apostrophe in the text is replaced by its HTML entity. -/
def html_escape (s : String) : String :=
  String.join (s.data.map escape_char)

/-! ## Submission lookup: `GroupProjectSubmissionXBlock.get_upload` -/

/-- One entry of the submission map returned by
`project_api.get_latest_workgroup_submissions_by_id`: a dict with keys
`document_url`, `document_filename`, `modified` and (optionally)
`user_details` (read with `.get("user_details", None)`). -/
structure SubmissionData where
  document_url : String
  document_filename : String
  modified : String
  user_details : Option String
deriving DecidableEq

/-- The `SubmissionUpload` namedtuple `(location, file_name, submission_date,
user_details)`. -/
structure SubmissionUpload where
  location : String
  file_name : String
  submission_date : String
  user_details : Option String
deriving DecidableEq

/-- `GroupProjectSubmissionXBlock.get_upload`: look the configured
`upload_id` up in the host's submission map (`submission_map.get(upload_id,
None)`); on a miss return `None`, otherwise build a `SubmissionUpload` whose
location is the entry's `document_url`, whose file name is the entry's
`document_filename`, and whose submission date is the formatted `modified`
field. The submission map (a dict with distinct keys) is modelled as an
association list; `format_date (build_date_field _)` from
`group_project_v2.utils` is an opaque formatting oracle `fmt`. -/
def get_upload (fmt : String → String) (upload_id : String)
    (submission_map : List (String × SubmissionData)) : Option SubmissionUpload :=
  match submission_map.lookup upload_id with
  | none => none
  | some submission_data =>
      some { location := submission_data.document_url
             file_name := submission_data.document_filename
             submission_date := fmt submission_data.modified
             user_details := submission_data.user_details }

/-! ## Feedback filtering and display -/

/-- One review item returned by the host
(`get_user_peer_review_items` / `get_workgroup_review_items_for_group`):
only the `question` and `answer` keys are read by this code. -/
structure FeedbackItem where
  question : String
  answer : String
deriving DecidableEq

/-- `GroupProjectTeamEvaluationDisplayXBlock.get_feedback` (and identically
`GroupProjectGradeEvaluationDisplayXBlock.get_feedback`): keep the items of
the host-provided list whose `question` field equals the configured
`question_id`. -/
def get_feedback (question_id : String) (all_feedback : List FeedbackItem) :
    List FeedbackItem :=
  all_feedback.filter (fun item => item.question == question_id)

/-- The loop of `GroupProjectBaseFeedbackDisplayXBlock.student_view` that
builds the displayed list: `feedback.append(html.escape(item['answer']))`
for each raw item, in order. -/
def collect_feedback (raw_feedback : List FeedbackItem) : List String :=
  raw_feedback.foldl (fun feedback item => feedback ++ [html_escape item.answer]) []

theorem collect_feedback_eq (raw_feedback : List FeedbackItem) :
    collect_feedback raw_feedback = raw_feedback.map (fun item => html_escape item.answer) := by
  suffices h : ∀ (l : List FeedbackItem) (acc : List String),
      l.foldl (fun feedback item => feedback ++ [html_escape item.answer]) acc
        = acc ++ l.map (fun item => html_escape item.answer) by
    simpa [collect_feedback] using h raw_feedback []
  intro l
  induction l with
  | nil => simp
  | cons hd tl ih => intro acc; simp [List.foldl_cons, ih]

/-- C6: `get_upload` returns a record exactly when the configured `upload_id`
is a key of the host's submission map; the record's location is that entry's
`document_url`; on a missing key it returns `none` and synthesizes no
default. -/
theorem c6_get_upload_iff_key_present (fmt : String → String) (upload_id : String)
    (submission_map : List (String × SubmissionData)) :
    ((get_upload fmt upload_id submission_map).isSome
        ↔ (submission_map.lookup upload_id).isSome)
    ∧ (∀ d, submission_map.lookup upload_id = some d →
        get_upload fmt upload_id submission_map
          = some { location := d.document_url
                   file_name := d.document_filename
                   submission_date := fmt d.modified
                   user_details := d.user_details })
    ∧ (submission_map.lookup upload_id = none →
        get_upload fmt upload_id submission_map = none) := by
  refine ⟨?_, ?_, ?_⟩
  · cases h : submission_map.lookup upload_id <;> simp [get_upload, h]
  · intro d hd; simp [get_upload, hd]
  · intro h; simp [get_upload, h]

/-- Witness for C6, from the spec's example: map
`{"doc1": {document_url: "http://x/f.pdf", ...}}`; upload id `"doc1"`
yields a record located at `"http://x/f.pdf"`, upload id `"doc2"` yields
nothing. -/
theorem c6_get_upload_witness :
    (List.lookup "doc1" [("doc1", (⟨"http://x/f.pdf", "f.pdf", "T", some "U"⟩ : SubmissionData))]
        = some (⟨"http://x/f.pdf", "f.pdf", "T", some "U"⟩ : SubmissionData))
    ∧ get_upload id "doc1" [("doc1", ⟨"http://x/f.pdf", "f.pdf", "T", some "U"⟩)]
        = some ⟨"http://x/f.pdf", "f.pdf", "T", some "U"⟩
    ∧ get_upload id "doc2" [("doc1", ⟨"http://x/f.pdf", "f.pdf", "T", some "U"⟩)] = none := by
  have h1 := (c6_get_upload_iff_key_present id "doc1"
      [("doc1", ⟨"http://x/f.pdf", "f.pdf", "T", some "U"⟩)]).2.1
      ⟨"http://x/f.pdf", "f.pdf", "T", some "U"⟩ (by decide)
  have h2 := (c6_get_upload_iff_key_present id "doc2"
      [("doc1", ⟨"http://x/f.pdf", "f.pdf", "T", some "U"⟩)]).2.2 (by decide)
  exact ⟨by decide, h1, h2⟩

/-- C7: the displayed feedback list is exactly the host items whose
`question` field equals the configured `question_id` (propositional string
equality, no case folding), in their original order, each answer passed
through `html_escape`. -/
theorem c7_displayed_feedback_filter_escape (question_id : String)
    (all_feedback : List FeedbackItem) :
    collect_feedback (get_feedback question_id all_feedback)
      = (all_feedback.filter (fun item => item.question = question_id)).map
          (fun item => html_escape item.answer) := by
  rw [collect_feedback_eq]
  unfold get_feedback
  have hpred : ∀ item : FeedbackItem,
      (item.question == question_id) = decide (item.question = question_id) := by
    intro item
    by_cases h : item.question = question_id <;> simp [h]
  rw [show (fun item : FeedbackItem => item.question == question_id)
        = (fun item => decide (item.question = question_id)) from funext hpred]

/-! ## Mean computation of `student_view` -/

/-- Round the fraction `n / d` (with `d > 0`) to the nearest integer, ties
to even — the rounding of CPython's `"{0:.1f}".format`. `f` is the floor of
the fraction and `rem2` is twice the remainder, compared against `d` to
decide between floor, ceiling and the tie. -/
def roundHalfEvenFrac (n d : Int) : Int :=
  let f := Int.fdiv n d
  let rem2 := 2 * (n - f * d)
  if rem2 < d then f
  else if d < rem2 then f + 1
  else if f % 2 = 0 then f else f + 1

/-- Python's `"{0:.1f}".format` on a (real) number: one digit after the
decimal point, rounding ties to even, computed on the numerator and
denominator of the rational. -/
def formatOneDecimal (q : Rat) : String :=
  let n := roundHalfEvenFrac (10 * q.num) (q.den : Int)
  let sign := if n < 0 then "-" else ""
  sign ++ toString (n.natAbs / 10) ++ "." ++ toString (n.natAbs % 10)

/-- The arithmetic mean of a list of rationals (`0` on the empty list, from
`Rat` division by zero; `mean` below never takes that branch). -/
def arithmetic_mean (values : List Rat) : Rat :=
  values.sum / (values.length : Rat)

/-- Modelled from the spec: `mean` from `group_project_v2.utils`, whose
source is not part of this repository snapshot. Per the spec it attempts to
coerce every answer string to a number and computes the arithmetic mean;
any coercion failure, and the empty list (mean of an empty set is
undefined), raise `ValueError` — modelled as `none`. The numeric coercion
(Python's `float`) is an oracle `coerce`. -/
def mean (coerce : String → Option Rat) (values : List String) : Option Rat :=
  if values.isEmpty then none
  else if values.all (fun a => (coerce a).isSome) then
    some (arithmetic_mean (values.map (fun a => (coerce a).getD 0)))
  else none

/-- The feedback part of `GroupProjectBaseFeedbackDisplayXBlock.student_view`
(reached when a question is selected): escape each raw answer in order; when
`show_mean` is set, render `"{0:.1f}".format(mean(feedback))`, falling back
to `"N/A"` when `mean` raises `ValueError` (modelled by `mean` returning
`none`). Returns the displayed list and the optional rendered mean. -/
def student_view_feedback (coerce : String → Option Rat) (question_id : String)
    (show_mean : Bool) (all_feedback : List FeedbackItem) :
    List String × Option String :=
  let feedback := collect_feedback (get_feedback question_id all_feedback)
  (feedback,
    if show_mean then
      some (match mean coerce feedback with
            | some m => formatOneDecimal m
            | none => "N/A")
    else none)

/-- C3: when no host feedback item matches the configured question id and the
mean is requested, the view shows an empty feedback list with mean
placeholder `"N/A"`; in particular the mean is never rendered `"0.0"`, and
the computation is total (no exception escapes). -/
theorem c3_empty_filter_mean_na (coerce : String → Option Rat) (question_id : String)
    (all_feedback : List FeedbackItem)
    (h : ∀ item ∈ all_feedback, item.question ≠ question_id) :
    student_view_feedback coerce question_id true all_feedback = ([], some "N/A")
    ∧ (student_view_feedback coerce question_id true all_feedback).2 ≠ some "0.0" := by
  have hfilter : get_feedback question_id all_feedback = [] := by
    unfold get_feedback
    rw [List.filter_eq_nil_iff]
    intro item hmem
    simpa using h item hmem
  constructor
  · unfold student_view_feedback
    rw [hfilter]
    simp [collect_feedback, mean]
  · unfold student_view_feedback
    rw [hfilter]
    simp [collect_feedback, mean]

/-- Witness for C3: one item under a different question id yields an empty
display and the `"N/A"` mean. -/
theorem c3_empty_filter_mean_na_witness :
    student_view_feedback (fun _ => none) "q1" true [⟨"q2", "1"⟩] = ([], some "N/A") :=
  (c3_empty_filter_mean_na (fun _ => none) "q1" [⟨"q2", "1"⟩]
    (by intro item hmem; simp at hmem; simp [hmem])).1

/-- C4: with the mean requested, if the filtered (escaped) answers are
nonempty and every one coerces to a number, the rendered mean is their
arithmetic mean formatted to one decimal place; if any filtered answer fails
numeric coercion, the view still succeeds and renders the `"N/A"`
placeholder for the whole mean. -/
theorem c4_mean_all_or_nothing (coerce : String → Option Rat) (question_id : String)
    (all_feedback : List FeedbackItem) :
    (collect_feedback (get_feedback question_id all_feedback) ≠ [] →
      (∀ a ∈ collect_feedback (get_feedback question_id all_feedback), (coerce a).isSome) →
      (student_view_feedback coerce question_id true all_feedback).2
        = some (formatOneDecimal (arithmetic_mean
            ((collect_feedback (get_feedback question_id all_feedback)).map
              (fun a => (coerce a).getD 0)))))
    ∧ ((∃ a ∈ collect_feedback (get_feedback question_id all_feedback), coerce a = none) →
      (student_view_feedback coerce question_id true all_feedback).2 = some "N/A") := by
  constructor
  · intro hne hall
    unfold student_view_feedback
    have hm : mean coerce (collect_feedback (get_feedback question_id all_feedback))
        = some (arithmetic_mean
            ((collect_feedback (get_feedback question_id all_feedback)).map
              (fun a => (coerce a).getD 0))) := by
      unfold mean
      rw [if_neg (by simpa [List.isEmpty_iff] using hne), if_pos]
      rw [List.all_eq_true]
      intro a ha
      simpa using hall a ha
    simp [hm]
  · intro hbad
    unfold student_view_feedback
    have hm : mean coerce (collect_feedback (get_feedback question_id all_feedback)) = none := by
      unfold mean
      rcases hbad with ⟨a, ha, hnone⟩
      have hne : ¬ (collect_feedback (get_feedback question_id all_feedback)).isEmpty := by
        rw [List.isEmpty_iff]
        intro hemp
        rw [hemp] at ha
        exact absurd ha (List.not_mem_nil a)
      rw [if_neg hne, if_neg]
      rw [List.all_eq_true]
      intro hall
      have := hall a ha
      rw [hnone] at this
      simp at this
    simp [hm]

/-- Numeric coercion used in witnesses: parse a decimal natural number
(digit characters only). -/
def coerceNat (s : String) : Option Rat :=
  if s.data ≠ [] ∧ s.data.all (fun c => ("0123456789".data.contains c)) then
    some ((s.data.foldl (fun acc c => acc * 10 + (c.toNat - 48)) 0 : Nat) : Rat)
  else none

/-- Witness for C4, from the spec's examples: answers `"3"`, `"5"` under the
selected question give mean `"4.0"`; replacing one answer by `"n/a"` gives
the `"N/A"` placeholder. -/
theorem c4_mean_all_or_nothing_witness :
    (student_view_feedback coerceNat "q1" true
        [⟨"q1", "3"⟩, ⟨"q1", "5"⟩, ⟨"q2", "1"⟩]).2 = some "4.0"
    ∧ (student_view_feedback coerceNat "q1" true
        [⟨"q1", "3"⟩, ⟨"q1", "n/a"⟩, ⟨"q2", "1"⟩]).2 = some "N/A" := by
  constructor
  · have h := (c4_mean_all_or_nothing coerceNat "q1"
        [⟨"q1", "3"⟩, ⟨"q1", "5"⟩, ⟨"q2", "1"⟩]).1 (by decide) (by decide)
    rw [h]
    have hlist : (collect_feedback (get_feedback "q1"
          [⟨"q1", "3"⟩, ⟨"q1", "5"⟩, ⟨"q2", "1"⟩])).map (fun a => (coerceNat a).getD 0)
        = [(3 : Rat), 5] := by decide
    rw [hlist]
    have hmean : arithmetic_mean [(3 : Rat), 5] = 4 := by norm_num [arithmetic_mean]
    rw [hmean]
    decide
  · exact (c4_mean_all_or_nothing coerceNat "q1"
        [⟨"q1", "3"⟩, ⟨"q1", "n/a"⟩, ⟨"q2", "1"⟩]).2 ⟨"n/a", by decide, by decide⟩

/-! ## Review question markup: `GroupProjectReviewQuestionXBlock.render_content` -/

/-- An XML element as `xml.etree.ElementTree` yields it: tag and attributes
(in document order; children are never read by `render_content`). -/
structure XmlElem where
  tag : String
  attrs : List (String × String)
deriving DecidableEq

/-- `ElementTree.Element.set`: replace the value under an existing attribute
key, or append the attribute. -/
def XmlElem.setAttr (e : XmlElem) (key value : String) : XmlElem :=
  if (e.attrs.lookup key).isSome then
    { e with attrs := e.attrs.map (fun p => if p.1 = key then (key, value) else p) }
  else
    { e with attrs := e.attrs ++ [(key, value)] }

/-- `ElementTree.Element.get`: the value under an attribute key, if any. -/
def XmlElem.getAttr (e : XmlElem) (key : String) : Option String :=
  e.attrs.lookup key

/-- The constant string passed to `log.exception` in `render_content`: the
code builds `message_tpl`, calls `message_tpl.format(...)` but discards the
formatted result, and logs the unformatted template itself. -/
def PARSE_ERROR_LOG_TEMPLATE : String :=
  "Exception when parsing question content for question {question_id}. Content is [{content}]."

/-- `GroupProjectReviewQuestionXBlock.render_content`: parse
`question_content` with `ElementTree.fromstring` (the parser is an oracle
`parse`; a `ParseError` is `none`); on failure log the (unformatted)
message template and return the empty string; on success set
`name` / `id` to the question id, build the class list (`answer`, then any
pre-existing class, then `side` when `single_line`, then `editable` when the
stage is not closed), set `disabled` when the stage is closed, and serialize
with `outer_html` (an oracle `outerHtml`). Returns the rendered string and
the list of logged messages. -/
def render_content (parse : String → Option XmlElem) (outerHtml : XmlElem → String)
    (question_id question_content : String) (single_line is_closed : Bool) :
    String × List String :=
  match parse question_content with
  | none => ("", [PARSE_ERROR_LOG_TEMPLATE])
  | some node =>
      let node := node.setAttr "name" question_id
      let node := node.setAttr "id" question_id
      let current_class := node.getAttr "class"
      let answer_classes := ["answer"]
      let answer_classes :=
        match current_class with
        | some c => answer_classes ++ [c]
        | none => answer_classes
      let answer_classes := if single_line then answer_classes ++ ["side"] else answer_classes
      let node := if is_closed then node.setAttr "disabled" "disabled" else node
      let answer_classes := if is_closed then answer_classes else answer_classes ++ ["editable"]
      let node := node.setAttr "class" (String.intercalate " " answer_classes)
      (outerHtml node, [])

set_option maxRecDepth 20000 in
/-- C2 claims the parse failure is logged with the offending content. The
code formats the message template but discards the result and logs the bare
template: at the malformed content `"<unclosed"` the render degrades to the
empty string without propagating (as claimed), but the single logged message
is the constant template, which does not contain the offending content. -/
theorem c2_parse_error_log_lacks_content :
    render_content (fun _ => none) (fun _ => "") "q1" "<unclosed" false false
      = ("", [PARSE_ERROR_LOG_TEMPLATE])
    ∧ ¬ ("<unclosed".data <:+: PARSE_ERROR_LOG_TEMPLATE.data) := by
  constructor
  · rfl
  · decide

/-! ## Submission upload: `upload_submission` and `persist_and_submit_file` -/

/-- A Python exception as this code observes it: an optional `message`
attribute (`hasattr(exc, "message")` / `getattr(exc, "message", ...)`), and
`apiCode = some c` exactly when the exception is an `ApiError` with code
`c` (`isinstance(exception, ApiError)` / `exception.code`). -/
structure PyExc where
  message : Option String
  apiCode : Option Nat
deriving DecidableEq

/-- The fields of the `UploadFile` object read after a fully successful
relay: `submission_id`, `file_url` (set by `submit()`) and `file.name`. -/
structure UploadedFile where
  submission_id : String
  file_url : String
  file_name : String
deriving DecidableEq

/-- Oracle for the host services called by `persist_and_submit_file`:
the outcome of `UploadFile.save_file()` and `UploadFile.submit()` (both
external to this file, free to raise), the ids the backend assigns, the
outcome of `runtime.publish`, whether the optional notifications service is
present, and the activity attributes read for the analytics payload. -/
structure RelayHost where
  file_name : String
  save_file : Except PyExc Unit
  submit : Except PyExc Unit
  submission_id : String
  file_url : String
  publish : Except PyExc Unit
  notifications_available : Bool
  content_id : String
  workgroup_id : String
  user_id : String

/-- Observable side effects of the upload path, in call order. -/
inductive Effect where
  | saveFile : Effect
  | submitCall : Effect
  | publishEvent : String → List (String × String) → Effect
  | notifyGroup : Effect
  | markComplete : Effect
deriving DecidableEq

/-- Recognizer for analytics publish effects. -/
def Effect.isPublish : Effect → Bool
  | .publishEvent _ _ => true
  | _ => false

/-- `_("Error storing file {} - {}").format(file_name, original)`. -/
def err_storing (file_name original : String) : String :=
  "Error storing file " ++ file_name ++ " - " ++ original

/-- `_("Error recording file information {} - {}").format(file_name, original)`. -/
def err_recording (file_name original : String) : String :=
  "Error recording file information " ++ file_name ++ " - " ++ original

/-- `GroupProjectSubmissionXBlock.SUBMISSION_RECEIVED_EVENT`. -/
def SUBMISSION_RECEIVED_EVENT : String := "activity.received_submission"

/-- The analytics payload of the `runtime.publish` call: exactly the keys
`submission_id`, `filename`, `content_id`, `group_id`, `user_id`. -/
def submission_payload (host : RelayHost) : List (String × String) :=
  [("submission_id", host.submission_id),
   ("filename", host.file_name),
   ("content_id", host.content_id),
   ("group_id", host.workgroup_id),
   ("user_id", host.user_id)]

/-- `GroupProjectSubmissionXBlock.persist_and_submit_file`: save the file
(a raising save is re-raised with its `message` set to the
"Error storing file" text); then submit it and publish the analytics event
inside one `try` (a raise from either is re-raised with its `message` set to
the "Error recording file information" text); finally, when the
notifications service is present, fire the group notification. Returns the
`UploadFile` result (or the mutated exception) together with the trace of
calls made into the host. -/
def persist_and_submit_file (host : RelayHost) :
    Except PyExc UploadedFile × List Effect :=
  match host.save_file with
  | .error save_file_error =>
      (.error { save_file_error with
                  message := some (err_storing host.file_name
                    (save_file_error.message.getD "")) },
       [.saveFile])
  | .ok _ =>
      match host.submit with
      | .error save_record_error =>
          (.error { save_record_error with
                      message := some (err_recording host.file_name
                        (save_record_error.message.getD "")) },
           [.saveFile, .submitCall])
      | .ok _ =>
          match host.publish with
          | .error save_record_error =>
              (.error { save_record_error with
                          message := some (err_recording host.file_name
                            (save_record_error.message.getD "")) },
               [.saveFile, .submitCall,
                .publishEvent SUBMISSION_RECEIVED_EVENT (submission_payload host)])
          | .ok _ =>
              (.ok { submission_id := host.submission_id,
                     file_url := host.file_url,
                     file_name := host.file_name },
               [.saveFile, .submitCall,
                .publishEvent SUBMISSION_RECEIVED_EVENT (submission_payload host)]
                 ++ (if host.notifications_available then [.notifyGroup] else []))

/-- The stage state read by `upload_submission`: availability flags, group
membership, the `STAGE_ACTION` word, the outcome of
`check_submissions_and_mark_complete()` and the (opaque) value of
`get_new_stage_state_data()`. -/
structure Stage where
  available_now : Bool
  is_open : Bool
  is_group_member : Bool
  stage_action : String
  mark_complete : Except PyExc Unit
  new_stage_state : String

/-- `STAGE_NOT_OPEN_TEMPLATE.format(action=...)`. -/
def STAGE_NOT_OPEN_TEMPLATE (action : String) : String :=
  "Can\x27t " ++ action ++ " as stage is not yet opened."

/-- `STAGE_CLOSED_TEMPLATE.format(action=...)`. -/
def STAGE_CLOSED_TEMPLATE (action : String) : String :=
  "Can\x27t " ++ action ++ " as stage is closed."

/-- `SUCCESSFUL_UPLOAD_TITLE`. -/
def SUCCESSFUL_UPLOAD_TITLE : String := "Upload complete."

/-- `FAILED_UPLOAD_TITLE`. -/
def FAILED_UPLOAD_TITLE : String := "Upload failed."

/-- `SUCCESSFUL_UPLOAD_MESSAGE_TPL.format(icon=...)`. -/
def SUCCESSFUL_UPLOAD_MESSAGE_TPL (icon : String) : String :=
  "Your deliverable have been successfully uploaded. You can attach an updated version of the "
    ++ "deliverable by clicking the <span class=\x27icon " ++ icon
    ++ "\x27></span> icon at any time before the deadline passes."

/-- `FAILED_UPLOAD_MESSAGE_TPL.format(error_goes_here=...)`. -/
def FAILED_UPLOAD_MESSAGE_TPL (error_goes_here : String) : String :=
  "Error uploading file: " ++ error_goes_here

/-- The group-membership denial message of `upload_submission`. -/
def ONLY_GROUP_MEMBERS_MESSAGE : String := "Only group members can upload files"

/-- The JSON body assembled by `upload_submission` (`response_data`):
fields that were never written stay `none`; `submissions` is the
single-entry mapping `{submission_id: file_url}`. -/
structure ResponseData where
  result : Option String := none
  title : Option String := none
  message : Option String := none
  submissions : Option (String × String) := none
  new_stage_states : Option (List String) := none
deriving DecidableEq

/-- `GroupProjectSubmissionXBlock.upload_submission` on a well-formed
multipart request: deny with 422 when the stage is not available (choosing
the "not yet opened" or "closed" message), then deny with 403 when the
requester is not a group member, both before any side effect; otherwise run
`persist_and_submit_file`, record `{submission_id: file_url}` under
`submissions`, call `check_submissions_and_mark_complete` and record the new
stage state; any exception of the `try` body is logged and turned into the
failed-upload title and message, with failure code 500 — or the error's own
code when it is an `ApiError`. Returns the body, the `failure_code` and the
effect trace. -/
def upload_submission (stage : Stage) (host : RelayHost) :
    ResponseData × Nat × List Effect :=
  if !stage.available_now then
    let template := if !stage.is_open then STAGE_NOT_OPEN_TEMPLATE else STAGE_CLOSED_TEMPLATE
    ({ result := some "error", message := some (template stage.stage_action) }, 422, [])
  else if !stage.is_group_member then
    ({ result := some "error", message := some ONLY_GROUP_MEMBERS_MESSAGE }, 403, [])
  else
    let response0 : ResponseData :=
      { title := some SUCCESSFUL_UPLOAD_TITLE,
        message := some (SUCCESSFUL_UPLOAD_MESSAGE_TPL "fa fa-paperclip") }
    match persist_and_submit_file host with
    | (.error exception, effects) =>
        ({ response0 with
             title := some FAILED_UPLOAD_TITLE,
             message := some (FAILED_UPLOAD_MESSAGE_TPL
               (exception.message.getD "Unknown error")) },
         exception.apiCode.getD 500, effects)
    | (.ok uploaded_file, effects) =>
        let response1 :=
          { response0 with
              submissions := some (uploaded_file.submission_id, uploaded_file.file_url) }
        match stage.mark_complete with
        | .error exception =>
            ({ response1 with
                 title := some FAILED_UPLOAD_TITLE,
                 message := some (FAILED_UPLOAD_MESSAGE_TPL
                   (exception.message.getD "Unknown error")) },
             exception.apiCode.getD 500, effects ++ [.markComplete])
        | .ok _ =>
            ({ response1 with new_stage_states := some [stage.new_stage_state] },
             0, effects ++ [.markComplete])

/-- The HTTP status of the webob response: `failure_code` when it is set
(non-zero), else webob's default 200. -/
def response_status (failure_code : Nat) : Nat :=
  if failure_code = 0 then 200 else failure_code

theorem persist_effects_start_with_save (host : RelayHost) :
    Effect.saveFile ∈ (persist_and_submit_file host).2 := by
  unfold persist_and_submit_file
  rcases host.save_file with e | u
  · simp
  · rcases host.submit with e | u
    · simp
    · rcases host.publish with e | u
      · simp
      · cases host.notifications_available <;> simp

/-- C5: the upload proceeds to the relay (the storage call is attempted) iff
the stage is available now and the requester is a group member; an
unavailable stage is denied with failure code 422 (status 422) and the
"not yet opened" message when the stage is not open, the "closed" message
otherwise; an available stage with a non-member is denied with 403; both
denials produce an empty effect trace (no side effect). -/
theorem c5_upload_gating (stage : Stage) (host : RelayHost) :
    ((Effect.saveFile ∈ (upload_submission stage host).2.2)
        ↔ (stage.available_now = true ∧ stage.is_group_member = true))
    ∧ (stage.available_now = false →
        upload_submission stage host
          = ({ result := some "error",
               message := some ((if !stage.is_open then STAGE_NOT_OPEN_TEMPLATE
                                 else STAGE_CLOSED_TEMPLATE) stage.stage_action) },
             422, [])
          ∧ response_status (upload_submission stage host).2.1 = 422)
    ∧ (stage.available_now = true → stage.is_group_member = false →
        upload_submission stage host
          = ({ result := some "error", message := some ONLY_GROUP_MEMBERS_MESSAGE }, 403, [])
          ∧ response_status (upload_submission stage host).2.1 = 403) := by
  refine ⟨?_, ?_, ?_⟩
  · constructor
    · intro hmem
      by_cases ha : stage.available_now = true
      · by_cases hm : stage.is_group_member = true
        · exact ⟨ha, hm⟩
        · exfalso
          rw [upload_submission] at hmem
          simp [ha, Bool.eq_false_iff.mpr hm] at hmem
      · exfalso
        rw [upload_submission] at hmem
        simp [Bool.eq_false_iff.mpr ha] at hmem
    · rintro ⟨ha, hm⟩
      rw [upload_submission]
      simp only [ha, hm, Bool.not_true]
      rcases hP : persist_and_submit_file host with ⟨res, effs⟩
      have hsave : Effect.saveFile ∈ effs := by
        have := persist_effects_start_with_save host
        rw [hP] at this
        exact this
      rcases res with e | uf
      · simpa using hsave
      · rcases stage.mark_complete with e | u <;> simp [List.mem_append] <;> exact hsave
  · intro ha
    rw [upload_submission]
    simp [ha, response_status, upload_submission]
  · intro ha hm
    rw [upload_submission]
    simp [ha, hm, response_status, upload_submission]

/-- C8: a fully successful relay call returns the result carrying
`submission_id` and `file_url`, performs exactly one analytics publish —
whose payload has exactly the keys `submission_id`, `filename`,
`content_id`, `group_id`, `user_id` — and fires the group notification iff
the notifications capability is present in the runtime (absence is not an
error: the call still succeeds). -/
theorem c8_successful_relay (host : RelayHost)
    (hs : host.save_file = .ok ()) (hb : host.submit = .ok ())
    (hp : host.publish = .ok ()) :
    (persist_and_submit_file host).1
      = .ok { submission_id := host.submission_id,
              file_url := host.file_url,
              file_name := host.file_name }
    ∧ (persist_and_submit_file host).2.filter Effect.isPublish
        = [Effect.publishEvent SUBMISSION_RECEIVED_EVENT (submission_payload host)]
    ∧ (submission_payload host).map Prod.fst
        = ["submission_id", "filename", "content_id", "group_id", "user_id"]
    ∧ (Effect.notifyGroup ∈ (persist_and_submit_file host).2
        ↔ host.notifications_available = true) := by
  refine ⟨?_, ?_, ?_, ?_⟩
  · rw [persist_and_submit_file, hs, hb, hp]
  · rw [persist_and_submit_file, hs, hb, hp]
    cases hn : host.notifications_available <;>
      simp [Effect.isPublish, List.filter_append]
  · rfl
  · rw [persist_and_submit_file, hs, hb, hp]
    cases hn : host.notifications_available <;> simp

/-- Fixture: a stage that is open and whose requester is a group member,
with a succeeding completion check. -/
def stageOpenMember : Stage :=
  { available_now := true, is_open := true, is_group_member := true,
    stage_action := "upload file", mark_complete := .ok (), new_stage_state := "state-1" }

/-- Fixture: a relay host where every external call succeeds. -/
def successHost : RelayHost :=
  { file_name := "f.txt", save_file := .ok (), submit := .ok (),
    submission_id := "sub-1", file_url := "http://x/f.txt", publish := .ok (),
    notifications_available := false, content_id := "c1",
    workgroup_id := "11", user_id := "7" }

/-- Witness for C8 at a concrete all-success host: the result carries the
backend ids, there is exactly one publish effect, and (the notifications
service being absent here) no notification is fired. -/
theorem c8_successful_relay_witness :
    (persist_and_submit_file successHost).1
      = .ok { submission_id := "sub-1", file_url := "http://x/f.txt", file_name := "f.txt" }
    ∧ (persist_and_submit_file successHost).2.filter Effect.isPublish
        = [Effect.publishEvent SUBMISSION_RECEIVED_EVENT (submission_payload successHost)]
    ∧ ¬ (Effect.notifyGroup ∈ (persist_and_submit_file successHost).2) := by
  have h := c8_successful_relay successHost rfl rfl rfl
  refine ⟨h.1, h.2.1, ?_⟩
  intro hmem
  have := h.2.2.2.mp hmem
  simp [successHost] at this

/-- C9: a save failure is re-raised with its message set to the
"Error storing file" text naming the file; a recording (submit) failure is
re-raised with the "Error recording file information" text naming the file;
any exception escaping the relay step gives failure code 500 — unless it is
an `ApiError`, whose own code is used — and that code is the response
status. -/
theorem c9_relay_error_codes_and_prefixes (stage : Stage) (host : RelayHost)
    (ha : stage.available_now = true) (hm : stage.is_group_member = true) :
    (∀ e, host.save_file = .error e →
        (persist_and_submit_file host).1
          = .error { e with
              message := some (err_storing host.file_name (e.message.getD "")) })
    ∧ (∀ e, host.save_file = .ok () → host.submit = .error e →
        (persist_and_submit_file host).1
          = .error { e with
              message := some (err_recording host.file_name (e.message.getD "")) })
    ∧ (∀ e, (persist_and_submit_file host).1 = .error e →
        (upload_submission stage host).2.1 = e.apiCode.getD 500
        ∧ (e.apiCode = none →
            response_status (upload_submission stage host).2.1 = 500)
        ∧ (∀ c, e.apiCode = some c → c ≠ 0 →
            response_status (upload_submission stage host).2.1 = c)) := by
  refine ⟨?_, ?_, ?_⟩
  · intro e he
    rw [persist_and_submit_file, he]
  · intro e hok he
    rw [persist_and_submit_file, hok, he]
  · intro e he
    have hup : (upload_submission stage host).2.1 = e.apiCode.getD 500 := by
      rw [upload_submission]
      simp only [ha, hm, Bool.not_true]
      rcases hP : persist_and_submit_file host with ⟨res, effs⟩
      rw [hP] at he
      simp only at he
      rw [he]
      simp
    refine ⟨hup, ?_, ?_⟩
    · intro hnone
      rw [response_status, hup, hnone]
      simp
    · intro c hc hc0
      rw [response_status, hup, hc]
      simp [hc0]

/-- Fixture: a relay host whose storage call raises an `ApiError` with code
418 whose exception message is "disk full". -/
def saveFailHost : RelayHost :=
  { file_name := "f.txt",
    save_file := .error { message := some "disk full", apiCode := some 418 },
    submit := .ok (), submission_id := "sub-1", file_url := "http://x/f.txt",
    publish := .ok (), notifications_available := false, content_id := "c1",
    workgroup_id := "11", user_id := "7" }

/-- Fixture: a relay host whose submissions-backend call raises a plain
exception without a `message` attribute. -/
def submitFailHost : RelayHost :=
  { file_name := "f.txt", save_file := .ok (),
    submit := .error { message := none, apiCode := none },
    submission_id := "sub-1", file_url := "http://x/f.txt",
    publish := .ok (), notifications_available := false, content_id := "c1",
    workgroup_id := "11", user_id := "7" }

/-- Witness for C9 at concrete hosts: a save failure surfaces the
"Error storing file" message and the `ApiError` code 418 as the status; a
submit failure surfaces the "Error recording file information" message and
status 500. -/
theorem c9_relay_error_codes_witness :
    (persist_and_submit_file saveFailHost).1
      = .error { message := some (err_storing "f.txt" "disk full"), apiCode := some 418 }
    ∧ (upload_submission stageOpenMember saveFailHost).2.1 = 418
    ∧ (persist_and_submit_file submitFailHost).1
      = .error { message := some (err_recording "f.txt" ""), apiCode := none }
    ∧ response_status (upload_submission stageOpenMember submitFailHost).2.1 = 500 := by
  have h1 := c9_relay_error_codes_and_prefixes stageOpenMember saveFailHost rfl rfl
  have h2 := c9_relay_error_codes_and_prefixes stageOpenMember submitFailHost rfl rfl
  have hw1 := h1.1 { message := some "disk full", apiCode := some 418 } rfl
  have hw2 := h2.2.1 { message := none, apiCode := none } rfl rfl
  refine ⟨hw1, ?_, hw2, ?_⟩
  · have := (h1.2.2 _ hw1).1
    rw [this]
    rfl
  · exact ((h2.2.2 _ hw2).2.1) rfl

/-- C10: when `persist_and_submit_file` succeeds but the later
`check_submissions_and_mark_complete` call raises, the error response
(failed-upload title and message, failure code 500 or the `ApiError` code)
still carries the `submissions` mapping `{submission_id: file_url}` written
before the failure. -/
theorem c10_error_body_keeps_submissions (stage : Stage) (host : RelayHost)
    (uploaded_file : UploadedFile) (e : PyExc)
    (ha : stage.available_now = true) (hm : stage.is_group_member = true)
    (hok : (persist_and_submit_file host).1 = .ok uploaded_file)
    (herr : stage.mark_complete = .error e) :
    (upload_submission stage host).1.title = some FAILED_UPLOAD_TITLE
    ∧ (upload_submission stage host).1.message
        = some (FAILED_UPLOAD_MESSAGE_TPL (e.message.getD "Unknown error"))
    ∧ (upload_submission stage host).1.submissions
        = some (uploaded_file.submission_id, uploaded_file.file_url)
    ∧ (upload_submission stage host).2.1 = e.apiCode.getD 500
    ∧ (e.apiCode = none → (upload_submission stage host).2.1 ≠ 0) := by
  have hred : upload_submission stage host
      = ({ result := none,
           title := some FAILED_UPLOAD_TITLE,
           message := some (FAILED_UPLOAD_MESSAGE_TPL (e.message.getD "Unknown error")),
           submissions := some (uploaded_file.submission_id, uploaded_file.file_url),
           new_stage_states := none },
         e.apiCode.getD 500, (persist_and_submit_file host).2 ++ [.markComplete]) := by
    rw [upload_submission]
    simp only [ha, hm, Bool.not_true]
    rcases hP : persist_and_submit_file host with ⟨res, effs⟩
    rw [hP] at hok
    simp only at hok
    rw [hok, herr]
    simp
  rw [hred]
  refine ⟨rfl, rfl, rfl, rfl, ?_⟩
  intro hnone
  rw [hnone]
  simp

/-- Fixture: an open-member stage whose completion check raises a plain
exception after the upload succeeded. -/
def markFailStage : Stage :=
  { available_now := true, is_open := true, is_group_member := true,
    stage_action := "upload file",
    mark_complete := .error { message := some "mark boom", apiCode := none },
    new_stage_state := "state-1" }

/-- Witness for C10: with an all-success relay host and a failing completion
check, the 500 error body still carries `{"sub-1": "http://x/f.txt"}`. -/
theorem c10_error_body_keeps_submissions_witness :
    (upload_submission markFailStage successHost).1.submissions
      = some ("sub-1", "http://x/f.txt")
    ∧ (upload_submission markFailStage successHost).1.title = some FAILED_UPLOAD_TITLE
    ∧ (upload_submission markFailStage successHost).1.message
        = some (FAILED_UPLOAD_MESSAGE_TPL "mark boom")
    ∧ (upload_submission markFailStage successHost).2.1 = 500 := by
  have h := c10_error_body_keeps_submissions markFailStage successHost
      { submission_id := "sub-1", file_url := "http://x/f.txt", file_name := "f.txt" }
      { message := some "mark boom", apiCode := none } rfl rfl rfl rfl
  exact ⟨h.2.2.1, h.1, h.2.1, h.2.2.2.1⟩

/-- Whether the relay returned the uploaded-file result (no exception). -/
def relayIsOk : Except PyExc UploadedFile → Bool
  | .ok _ => true
  | .error _ => false

/-- Fixture: a relay host where saving and submitting succeed but the
analytics publish call raises. -/
def publishFailHost : RelayHost :=
  { file_name := "f.txt", save_file := .ok (), submit := .ok (),
    submission_id := "sub-1", file_url := "http://x/f.txt",
    publish := .error { message := some "boom", apiCode := none },
    notifications_available := true, content_id := "c1",
    workgroup_id := "11", user_id := "7" }

/-- Counterexample to C1: saving (and recording) succeed but the analytics
publish call raises — because the publish sits inside the recording `try`,
the exception is re-raised and `persist_and_submit_file` fails with the
"Error recording file information" message instead of returning the
uploaded-file result. -/
theorem c1_counterexample_publish_failure_fails_relay :
    relayIsOk (persist_and_submit_file publishFailHost).1 = false
    ∧ (persist_and_submit_file publishFailHost).1
        = .error { message := some (err_recording "f.txt" "boom"), apiCode := none } := by
  exact ⟨rfl, rfl⟩

/-- C1 (amended): when saving and recording succeed but the analytics
publish call raises, the overall submission fails — the publish exception is
caught by the recording-step handler and re-raised with the
"Error recording file information" prefix, and `persist_and_submit_file`
does not return the uploaded-file result. The publish is harmless only when
the runtime's publish itself does not raise. -/
theorem c1_amended_publish_failure_fails_relay (host : RelayHost) (e : PyExc)
    (hs : host.save_file = .ok ()) (hb : host.submit = .ok ())
    (hp : host.publish = .error e) :
    (persist_and_submit_file host).1
      = .error { e with
          message := some (err_recording host.file_name (e.message.getD "")) }
    ∧ relayIsOk (persist_and_submit_file host).1 = false := by
  have h : (persist_and_submit_file host).1
      = .error { e with
          message := some (err_recording host.file_name (e.message.getD "")) } := by
    rw [persist_and_submit_file, hs, hb, hp]
  exact ⟨h, by rw [h]; rfl⟩

/-- Witness for the amended C1 at a concrete host: publishing fails, the
relay returns the mutated recording error. -/
theorem c1_amended_publish_failure_witness :
    (persist_and_submit_file publishFailHost).1
      = .error { message := some (err_recording "f.txt" "boom"), apiCode := none }
    ∧ relayIsOk (persist_and_submit_file publishFailHost).1 = false :=
  c1_amended_publish_failure_fails_relay publishFailHost
    { message := some "boom", apiCode := none } rfl rfl rfl

/-- Fixture: a stage that is not yet open (not available, not open). -/
def stageNotOpen : Stage :=
  { available_now := false, is_open := false, is_group_member := true,
    stage_action := "upload file", mark_complete := .ok (), new_stage_state := "state-1" }

/-- Fixture: a stage that is closed (not available although it was open). -/
def stageClosed : Stage :=
  { available_now := false, is_open := true, is_group_member := true,
    stage_action := "upload file", mark_complete := .ok (), new_stage_state := "state-1" }

/-- Fixture: an open stage requested by a non-member. -/
def stageNonMember : Stage :=
  { available_now := true, is_open := true, is_group_member := false,
    stage_action := "upload file", mark_complete := .ok (), new_stage_state := "state-1" }

/-- Witness for C5 at concrete stages: the not-yet-open denial (422,
"not yet opened" message, no effects), the closed denial (422, "closed"
message), the non-member denial (403, no effects), and the relay being
reached on an open-member stage. -/
theorem c5_upload_gating_witness :
    upload_submission stageNotOpen successHost
      = ({ result := some "error",
           message := some (STAGE_NOT_OPEN_TEMPLATE "upload file") }, 422, [])
    ∧ (upload_submission stageClosed successHost).1.message
        = some (STAGE_CLOSED_TEMPLATE "upload file")
    ∧ response_status (upload_submission stageClosed successHost).2.1 = 422
    ∧ upload_submission stageNonMember successHost
      = ({ result := some "error", message := some ONLY_GROUP_MEMBERS_MESSAGE }, 403, [])
    ∧ Effect.saveFile ∈ (upload_submission stageOpenMember successHost).2.2 := by
  have h1 := (c5_upload_gating stageNotOpen successHost).2.1 rfl
  have h2 := (c5_upload_gating stageClosed successHost).2.1 rfl
  have h3 := (c5_upload_gating stageNonMember successHost).2.2 rfl rfl
  have h4 := (c5_upload_gating stageOpenMember successHost).1.mpr ⟨rfl, rfl⟩
  refine ⟨h1.1, ?_, h2.2, h3.1, h4⟩
  rw [h2.1]
  rfl
